import Mathlib

/-!
Shallow embedding of the product-catalog route handlers in
`src/routes/ProductRoute.js` (Express routes plus the controller module
`controller/createProduct.js` whose full text is concatenated in that file).

Conventions of the embedding:
* A MongoDB/Mongoose collection is a `List Product` (respectively
  `List Order`), threaded explicitly through each handler; a single-document
  write returns the new list.  Document ids (Mongo ObjectIds) are `String`s.
* Multipart form fields (`req.fields`, produced by formidable) are
  `Option String`: `none` is JavaScript `undefined`, and JavaScript
  truthiness of a string field (`!name`) is `truthy` below.
* An uploaded file (`req.files.photo`) is `PhotoFile`: its formidable-reported
  byte size, MIME type, and the bytes `fs.readFileSync(photo.path)` yields.
* Each handler returns an explicit response value; every `res.status(...)`
  reachable in the handler is a constructor carrying that status code.
* The store itself is modelled as non-failing, so catch branches that only
  guard against database faults are unreachable in the model and noted where
  they occur.
-/

set_option autoImplicit false

namespace ECommerce

/-- A category document (owned by an external collaborator, referenced by
products and resolved by `populate("category")`). -/
structure Category where
  id : String
  name : String
  slug : String
deriving DecidableEq, Repr

/-- The embedded photo subdocument of a product: raw bytes plus stored
content type.  A product that has never had a photo written has `none`. -/
structure StoredPhoto where
  data : List Nat
  contentType : String
deriving DecidableEq, Repr

/-- A product document as persisted by the Mongoose model. -/
structure Product where
  id : String
  name : String
  slug : String
  description : String
  price : Int
  category : String
  quantity : Int
  shipping : Option String
  photo : Option StoredPhoto
  createdAt : Nat
deriving DecidableEq, Repr

/-- A product as returned by queries that use `.select("-photo")`: every
stored attribute except the photo subdocument. -/
structure ProductView where
  id : String
  name : String
  slug : String
  description : String
  price : Int
  category : String
  quantity : Int
  createdAt : Nat
deriving DecidableEq, Repr

/-- `.select("-photo")` applied to one document. -/
def stripPhoto (p : Product) : ProductView :=
  { id := p.id, name := p.name, slug := p.slug, description := p.description
    price := p.price, category := p.category, quantity := p.quantity
    createdAt := p.createdAt }

/-- A product with `.select("-photo")` and `.populate("category")` applied:
the category reference resolved to the category document (or `none` when the
referenced id is not in the category collection). -/
structure PopulatedView where
  id : String
  name : String
  slug : String
  description : String
  price : Int
  category : Option Category
  quantity : Int
  createdAt : Nat
deriving DecidableEq, Repr

/-- `.populate("category").select("-photo")` applied to one document. -/
def populateStrip (cats : List Category) (p : Product) : PopulatedView :=
  { id := p.id, name := p.name, slug := p.slug, description := p.description
    price := p.price, category := cats.find? (fun c => c.id == p.category)
    quantity := p.quantity, createdAt := p.createdAt }

/-- An uploaded multipart file as formidable exposes it. -/
structure PhotoFile where
  size : Nat
  type : String
  data : List Nat
deriving DecidableEq, Repr

/-- The destructured `req.fields` of the create/update handlers. -/
structure ProductFields where
  name : Option String
  description : Option String
  price : Option String
  category : Option String
  quantity : Option String
  shipping : Option String
deriving DecidableEq, Repr

/-- JavaScript truthiness of a possibly absent string form field:
`undefined` and the empty string are falsy, every other string is truthy. -/
def truthy : Option String → Bool
  | none => false
  | some s => !s.isEmpty

/-- Models the `slugify` library's default behaviour on the names exercised
here (spaces become hyphens).  No claim examines the slug's fine structure. -/
def slugify (s : String) : String :=
  s.map (fun c => if c = ' ' then '-' else c)

/-- Models Mongoose's cast of a numeric form-field string into the numeric
schema field.  No claim examines the persisted numeric values. -/
def castNum (s : String) : Int :=
  (s.toInt?).getD 0

/-- Response of `CreateProducts`.  The handler wraps its whole body in its
own try/catch: the five thrown `NotFoundError`s are caught locally and
re-emitted as `res.status(500).send({error: error.message})`, while the photo
check responds `res.status(400)` directly and success responds 200. -/
inductive CreateResp where
  | created (product : Product)
  | badRequest (error : String)
  | serverError (error : String)
deriving DecidableEq, Repr

/-- The HTTP status code the `CreateProducts` handler attaches. -/
def CreateResp.status : CreateResp → Nat
  | .created _ => 200
  | .badRequest _ => 400
  | .serverError _ => 500

/-- Whether a `CreateProducts` response is the success response. -/
def CreateResp.isOk : CreateResp → Bool
  | .created _ => true
  | _ => false

/-- `CreateProducts` (`controller/createProduct.js`): validates the five form
fields in order with thrown errors (caught by the handler's own catch, hence
status 500), then requires a photo of at most 1,000,000 bytes (status 400
otherwise), then builds the product from the fields with a slugified name,
writes the photo bytes and content type, and saves it.  `newId` and `now` are
the id and creation timestamp the store assigns to the new document. -/
def CreateProducts (fields : ProductFields) (photo : Option PhotoFile)
    (newId : String) (now : Nat) (store : List Product) :
    CreateResp × List Product :=
  if !truthy fields.name then (.serverError "Name is Required", store)
  else if !truthy fields.description then
    (.serverError "Description is Required", store)
  else if !truthy fields.price then (.serverError "Price is Required", store)
  else if !truthy fields.category then
    (.serverError "Category is Required", store)
  else if !truthy fields.quantity then
    (.serverError "Quantity is Required", store)
  else
    match photo with
    | none =>
      (.badRequest "Photo is Required and should be less than 1MB", store)
    | some ph =>
      if 1000000 < ph.size then
        (.badRequest "Photo is Required and should be less than 1MB", store)
      else
        let product : Product :=
          { id := newId
            name := (fields.name).getD ""
            slug := slugify ((fields.name).getD "")
            description := (fields.description).getD ""
            price := castNum ((fields.price).getD "")
            category := (fields.category).getD ""
            quantity := castNum ((fields.quantity).getD "")
            shipping := fields.shipping
            photo := some { data := ph.data, contentType := ph.type }
            createdAt := now }
        (.created product, store ++ [product])

/-- Response of `UpdateProduct`.  Every validation failure in its
`switch (true)` responds with status 500; a missing id makes the later
`product.photo.data` assignment or `product.save()` dereference `null`, an
uncaught TypeError handed to the async wrapper (no 201 response). -/
inductive UpdateResp where
  | updated (product : Product)
  | serverError (error : String)
  | thrown (error : String)
deriving DecidableEq, Repr

/-- Whether an `UpdateProduct` response is the success (201) response. -/
def UpdateResp.isOk : UpdateResp → Bool
  | .updated _ => true
  | _ => false

/-- The document produced by `findByIdAndUpdate(id, {...req.fields, slug},
{new: true})` followed by the conditional photo overwrite and save. -/
def applyUpdate (fields : ProductFields) (photo : Option PhotoFile)
    (p : Product) : Product :=
  let p1 : Product :=
    { p with
      name := (fields.name).getD ""
      slug := slugify ((fields.name).getD "")
      description := (fields.description).getD ""
      price := castNum ((fields.price).getD "")
      category := (fields.category).getD ""
      quantity := castNum ((fields.quantity).getD "")
      shipping := fields.shipping }
  match photo with
  | some ph => { p1 with photo := some { data := ph.data, contentType := ph.type } }
  | none => p1

/-- `UpdateProduct`: the `switch (true)` validation chain (all branches
status 500, photo-size check last and only when a photo is supplied), then
`findByIdAndUpdate` with the spread fields and recomputed slug, the photo
overwrite when supplied, and `product.save()`.  Ids are unique in a Mongo
collection, so replacing the matching document models the single-document
update. -/
def UpdateProduct (id : String) (fields : ProductFields)
    (photo : Option PhotoFile) (store : List Product) :
    UpdateResp × List Product :=
  if !truthy fields.name then (.serverError "Name is Required", store)
  else if !truthy fields.description then
    (.serverError "Description is Required", store)
  else if !truthy fields.price then (.serverError "Price is Required", store)
  else if !truthy fields.category then
    (.serverError "Category is Required", store)
  else if !truthy fields.quantity then
    (.serverError "Quantity is Required", store)
  else if (match photo with | some ph => decide (1000000 < ph.size) | none => false) then
    (.serverError "Photo is Required and should be less than 1MB", store)
  else
    match store.find? (fun p => p.id == id) with
    | none => (.thrown "TypeError: cannot set properties of null", store)
    | some p =>
      let p2 := applyUpdate fields photo p
      (.updated p2, store.map (fun q => if q.id == id then p2 else q))

/-- Response of `getProduct`: the handler always answers
`res.status(200).send({success: true, product})`, where `product` is the
`findOne` result and is `null` when no document has the slug. -/
structure GetProductResp where
  status : Nat
  success : Bool
  product : Option PopulatedView
deriving DecidableEq, Repr

/-- `getProduct`: `findOne({slug}).populate("category").select("-photo")`,
then an unconditional 200 response.  There is no not-found branch. -/
def getProduct (slug : String) (cats : List Category)
    (store : List Product) : GetProductResp :=
  { status := 200
    success := true
    product := (store.find? (fun p => p.slug == slug)).map (populateStrip cats) }

/-- Response of `DeleteProduct`: always
`res.status(200).send({success: true, message, products})` where `products`
is the document `findByIdAndDelete` removed, or `null`. -/
structure DeleteResp where
  status : Nat
  success : Bool
  products : Option Product
deriving DecidableEq, Repr

/-- `findByIdAndDelete(id)`: removes the document with the given id (ids are
unique, so the first match) and returns it, or returns `null` and leaves the
collection unchanged. -/
def findByIdAndDelete (id : String) (store : List Product) :
    Option Product × List Product :=
  (store.find? (fun p => p.id == id), store.eraseP (fun p => p.id == id))

/-- `DeleteProduct`: delegates to `findByIdAndDelete` and always answers 200
with the (possibly null) deleted document. -/
def DeleteProduct (id : String) (store : List Product) :
    DeleteResp × List Product :=
  ({ status := 200, success := true
     products := (findByIdAndDelete id store).fst },
   (findByIdAndDelete id store).snd)

/-- Insert a product into a list kept in descending `createdAt` order. -/
def insertByCreatedDesc (p : Product) : List Product → List Product
  | [] => [p]
  | q :: qs =>
    if q.createdAt ≤ p.createdAt then p :: q :: qs
    else q :: insertByCreatedDesc p qs

/-- The store's `.sort({createdAt: -1})`: the collection in descending
creation-timestamp order (ties in unspecified order, as the spec allows). -/
def sortByCreatedDesc : List Product → List Product
  | [] => []
  | p :: ps => insertByCreatedDesc p (sortByCreatedDesc ps)

/-- Response of `productList` on its success path:
`res.status(200).send({success: true, products})`. -/
structure ListResp where
  status : Nat
  success : Bool
  products : List ProductView
deriving DecidableEq, Repr

/-- `const page = req.params.page ? req.params.page : 1`: the page defaults
to 1 when the route parameter is absent or falsy (the number 0 is falsy). -/
def effPage : Option Nat → Nat
  | none => 1
  | some n => if n = 0 then 1 else n

/-- `productList`: `find({}).select("-photo").skip((page-1)*perPage)`
`.limit(perPage).sort({createdAt: -1})` with `perPage = 3`.  The store
applies the sort before skip and limit regardless of the call order.  The
route parameter is a decimal string that JavaScript coerces numerically; it
is modelled as the number it denotes (non-numeric input is outside the
model, as the spec leaves it undefined). -/
def productList (page : Option Nat) (store : List Product) : ListResp :=
  let perPage := 3
  let p := effPage page
  { status := 200
    success := true
    products :=
      (((sortByCreatedDesc store).drop ((p - 1) * perPage)).take perPage).map
        stripPhoto }

/-- Whether the character list `needle` begins the character list `hay`. -/
def charsLeading : List Char → List Char → Bool
  | [], _ => true
  | _ :: _, [] => false
  | a :: as, b :: bs => a == b && charsLeading as bs

/-- Whether the character list `needle` occurs contiguously in `hay`. -/
def charsWithin (needle : List Char) : List Char → Bool
  | [] => needle.isEmpty
  | b :: bs => charsLeading needle (b :: bs) || charsWithin needle bs

/-- Models the store's `{$regex: keyword, $options: "i"}` predicate:
case-insensitive substring containment of the keyword in the text.  (This is
the operator's behaviour for keywords without regex metacharacters; the
regex engine itself belongs to the external store.) -/
def ciContains (keyword text : String) : Bool :=
  charsWithin (keyword.data.map Char.toLower) (text.data.map Char.toLower)

/-- Response of `ProductSearch`: a 400 JSON error for an empty keyword, else
`res.json(result)` (status 200) with the matching documents, photo
excluded. -/
inductive SearchResp where
  | badRequest (message : String)
  | ok (results : List ProductView)
deriving DecidableEq, Repr

/-- The search handler's query: `find({$or: [{name: {$regex: keyword,`
`$options: "i"}}, {description: {$regex: keyword, $options: "i"}}]})`
`.select("-photo")`. -/
def searchMatches (keyword : String) (store : List Product) :
    List ProductView :=
  (store.filter (fun p =>
    ciContains keyword p.name || ciContains keyword p.description)).map
      stripPhoto

/-- `ProductSearch`: rejects a falsy keyword with
`res.status(400).json({success: false, message: "Keyword is required."})`,
else answers `res.json(result)` with the `$or` query's matches. -/
def ProductSearch (keyword : String) (store : List Product) : SearchResp :=
  if keyword.isEmpty then .badRequest "Keyword is required."
  else .ok (searchMatches keyword store)

/-- Response of `productPhotoContrller`.  When `findById` yields a document
the handler sets the Content-Type header to `product.photo.contentType` and
sends `product.photo.data` (both `undefined`, modelled `none`, when the
document has no photo subdocument).  When `findById` yields `null` the
handler falls through its `if (product)` with no response at all.  Its catch
branch only guards store faults, which the pure model does not produce. -/
inductive PhotoResp where
  | sent (contentType : Option String) (data : Option (List Nat))
  | noResponse
deriving DecidableEq, Repr

/-- Whether the photo handler produced any terminal response. -/
def PhotoResp.responds : PhotoResp → Bool
  | .sent _ _ => true
  | .noResponse => false

/-- `productPhotoContrller`: `findById(pid).select("photo")`, then the raw
bytes with the stored content type when a document exists, and no response
otherwise. -/
def productPhotoContrller (pid : String) (store : List Product) : PhotoResp :=
  match store.find? (fun p => p.id == pid) with
  | some p =>
    .sent (p.photo.map (fun ph => ph.contentType))
      (p.photo.map (fun ph => ph.data))
  | none => .noResponse

/-- Whether an integer lies in the inclusive range `radio` describes, the
two-element `[low, high]` array the filter route's contract supplies
(`{$gte: radio[0], $lte: radio[1]}`). -/
def priceInRange (radio : List Int) (price : Int) : Bool :=
  radio.getD 0 0 ≤ price && price ≤ radio.getD 1 0

/-- Response of `productFilter`.  The destructuring and the two `.length`
reads happen before the handler's try block: when `checked` or `radio` is
absent from the body, the TypeError propagates to the async wrapper and the
201 response is never built.  The inner catch (status 400) only guards store
faults, which the pure model does not produce. -/
inductive FilterResp where
  | ok (products : List Product)
  | thrown (error : String)
deriving DecidableEq, Repr

/-- `productFilter`: builds `args` from `checked.length > 0` (category set)
and `radio.length` (price range), then `find(args)` and a 201 response.
Note that this handler does not exclude the photo field. -/
def productFilter (checked : Option (List String)) (radio : Option (List Int))
    (store : List Product) : FilterResp :=
  match checked with
  | none => .thrown "TypeError: checked is undefined"
  | some ch =>
    match radio with
    | none => .thrown "TypeError: radio is undefined"
    | some rd =>
      .ok (store.filter (fun p =>
        (if 0 < ch.length then ch.contains p.category else true) &&
        (if rd.length ≠ 0 then priceInRange rd p.price else true)))

/-- A line item of the client-submitted cart. -/
structure CartItem where
  productId : String
  price : Int
  quantity : Int
deriving DecidableEq, Repr

/-- An order document as the payment handler tries to persist it. -/
structure Order where
  products : List CartItem
  payment : String
  buyer : String
deriving DecidableEq, Repr

/-- The gateway's callback outcome for `transaction.sale`: exactly one of a
truthy result payload or an error is produced. -/
inductive GatewayOutcome where
  | success (result : String)
  | failure (error : String)
deriving DecidableEq, Repr

/-- Response of `brainTreePaymentController`: `res.json({ok: true})` on the
persisted-order path, `res.status(500).send(error)` when the gateway reports
no result, and no response at all when the success callback throws before
reaching `res.json`. -/
inductive PaymentResp where
  | okJson
  | gatewayError (error : String)
  | referenceError (name : String)
deriving DecidableEq, Repr

/-- The controller module's binding for the identifier `orderModel`: the
module's import list (`slugify`, `NotFoundError`, `asyncWrapper`,
`ProductModel`, `CategoryModels`, `fs`, `braintree`, `dotenv`) does not bind
`orderModel`, so evaluating `new orderModel(...)` in the success callback
raises `ReferenceError: orderModel is not defined`. -/
def orderModelBinding : Option (List CartItem → String → String → Order) :=
  none

/-- `let total = 0; cart.map((i) => { total += i.price })`: the charge total
is the sum of the line items' `price` fields, quantity not factored in. -/
def computeTotal (cart : List CartItem) : Int :=
  cart.foldl (fun total i => total + i.price) 0

/-- What one invocation of the payment handler did: the amount and nonce
submitted to `gateway.transaction.sale` (with `submitForSettlement: true`),
the response produced, and the order collection afterwards. -/
structure PaymentResult where
  amountSubmitted : Int
  nonceSubmitted : String
  resp : PaymentResp
  orders : List Order
deriving DecidableEq, Repr

/-- `brainTreePaymentController`: sums the cart's prices, submits the sale,
and in the callback persists `new orderModel({products: cart, payment:
result, buyer: req.user._id})` then answers `{ok: true}` when a result is
present, else answers 500 with the gateway error.  Because `orderModel` is
an unbound identifier in the module, the success branch raises a
ReferenceError instead of persisting anything. -/
def brainTreePaymentController (nonce : String) (cart : List CartItem)
    (buyer : String) (outcome : GatewayOutcome) (orders : List Order) :
    PaymentResult :=
  let total := computeTotal cart
  match outcome with
  | .success result =>
    match orderModelBinding with
    | some mk =>
      { amountSubmitted := total, nonceSubmitted := nonce, resp := .okJson
        orders := orders ++ [mk cart result buyer] }
    | none =>
      { amountSubmitted := total, nonceSubmitted := nonce
        resp := .referenceError "orderModel", orders := orders }
  | .failure error =>
    { amountSubmitted := total, nonceSubmitted := nonce
      resp := .gatewayError error, orders := orders }

/-- Whether a status code is a 400-class (client-error) status. -/
def clientErrorClass (n : Nat) : Bool :=
  400 ≤ n && n < 500

/-! Concrete fixtures used by witnesses and counterexamples. -/

/-- A create/update request with every form field present and truthy. -/
def fullFields : ProductFields :=
  { name := some "Nice Phone", description := some "A good phone"
    price := some "99", category := some "cat1", quantity := some "5"
    shipping := some "true" }

/-- `fullFields` with the name absent. -/
def fieldsNoName : ProductFields :=
  { fullFields with name := none }

/-- An uploaded photo within the size bound. -/
def photoOk : PhotoFile :=
  { size := 500, type := "image/png", data := [1, 2, 3] }

/-- An uploaded photo of 1,000,001 bytes, above the size bound. -/
def photoBig : PhotoFile :=
  { size := 1000001, type := "image/png", data := [9] }

/-- A stored product used as a concrete store element. -/
def prodA : Product :=
  { id := "p1", name := "Alpha Watch", slug := "Alpha-Watch"
    description := "Great PHONE deal", price := 100, category := "cat1"
    quantity := 3, shipping := none
    photo := some { data := [7, 8], contentType := "image/png" }
    createdAt := 10 }

/-- A second stored product, older than `prodA`, without a photo. -/
def prodB : Product :=
  { id := "p2", name := "Beta Lamp", slug := "Beta-Lamp"
    description := "A bright lamp", price := 20, category := "cat2"
    quantity := 1, shipping := none, photo := none, createdAt := 5 }

/-- A product without a photo, parameterised by id, timestamp and price,
used to build multi-product stores. -/
def mkProd (id : String) (createdAt : Nat) (price : Int) : Product :=
  { id := id, name := "Item " ++ id, slug := "Item-" ++ id
    description := "Desc " ++ id, price := price, category := "cat1"
    quantity := 1, shipping := none, photo := none, createdAt := createdAt }

/-- A store of six products with distinct creation timestamps, listed in
insertion order (oldest first). -/
def sixStore : List Product :=
  [mkProd "s1" 1 10, mkProd "s2" 2 20, mkProd "s3" 3 30,
   mkProd "s4" 4 40, mkProd "s5" 5 50, mkProd "s6" 6 60]

/-! Validation-order machinery for the create handler (claim C3). -/

/-- The attributes the create handler checks, in source order. -/
inductive ReqField where
  | name
  | description
  | price
  | category
  | quantity
  | photo
deriving DecidableEq, Repr

/-- The first attribute missing from a create request, following the
handler's fixed check order name, description, price, category, quantity,
photo (`none` when all six are supplied). -/
def firstMissing (fields : ProductFields) (photo : Option PhotoFile) :
    Option ReqField :=
  if !truthy fields.name then some .name
  else if !truthy fields.description then some .description
  else if !truthy fields.price then some .price
  else if !truthy fields.category then some .category
  else if !truthy fields.quantity then some .quantity
  else if photo.isNone then some .photo
  else none

/-- The exact error response the create handler produces for each first
missing attribute: status 500 for the five thrown-and-caught field errors and
status 400 for the photo check. -/
def missingFieldResp : ReqField → CreateResp
  | .name => .serverError "Name is Required"
  | .description => .serverError "Description is Required"
  | .price => .serverError "Price is Required"
  | .category => .serverError "Category is Required"
  | .quantity => .serverError "Quantity is Required"
  | .photo => .badRequest "Photo is Required and should be less than 1MB"

/-! Claim theorems. -/

/-- C3 (counterexample): a create request missing only the name fails with
the message naming the name field, but with status 500 — not a 400-class
status as the claim states. -/
theorem c3_counterexample_missing_name_is_500 :
    (CreateProducts fieldsNoName (some photoOk) "id9" 0 []).fst
      = CreateResp.serverError "Name is Required" ∧
    (CreateProducts fieldsNoName (some photoOk) "id9" 0 []).fst.status = 500 ∧
    clientErrorClass
      (CreateProducts fieldsNoName (some photoOk) "id9" 0 []).fst.status
      = false := by
  decide

/-- C3 (amended): for every create request with at least one of the six
checked attributes missing, the handler fails — nothing is persisted — with
exactly the error naming the first missing attribute in the fixed order
name, description, price, category, quantity, photo, independent of the
other attributes; the five form-field errors carry status 500 (the handler's
own catch maps its thrown validation errors to 500) and only the photo check
carries status 400. -/
theorem c3_create_names_first_missing_field (fields : ProductFields)
    (photo : Option PhotoFile) (newId : String) (now : Nat)
    (store : List Product) (f : ReqField)
    (h : firstMissing fields photo = some f) :
    CreateProducts fields photo newId now store = (missingFieldResp f, store) ∧
    (missingFieldResp f).isOk = false := by
  unfold firstMissing at h
  split_ifs at h with h1 h2 h3 h4 h5 h6
  · cases h
    simp [CreateProducts, h1, missingFieldResp, CreateResp.isOk]
  · cases h
    simp [CreateProducts, h1, h2, missingFieldResp, CreateResp.isOk]
  · cases h
    simp [CreateProducts, h1, h2, h3, missingFieldResp, CreateResp.isOk]
  · cases h
    simp [CreateProducts, h1, h2, h3, h4, missingFieldResp, CreateResp.isOk]
  · cases h
    simp [CreateProducts, h1, h2, h3, h4, h5, missingFieldResp, CreateResp.isOk]
  · cases h
    cases photo with
    | none =>
      simp [CreateProducts, h1, h2, h3, h4, h5, missingFieldResp,
        CreateResp.isOk]
    | some ph => simp at h6

/-- C3 (witness): the amended theorem applied to a concrete request whose
first missing attribute is the name. -/
theorem c3_create_names_first_missing_field_witness :
    CreateProducts fieldsNoName (some photoOk) "id9" 0 [prodA] =
      (missingFieldResp ReqField.name, [prodA]) ∧
    (missingFieldResp ReqField.name).isOk = false :=
  c3_create_names_first_missing_field fieldsNoName (some photoOk) "id9" 0
    [prodA] ReqField.name (by decide)

/-- C4 (counterexample): a create request with all five form fields present
and no photo file does not succeed — it is answered with the 400 photo error
and nothing is persisted — refuting the claim that the photo is optional at
creation. -/
theorem c4_counterexample_no_photo_fails :
    (CreateProducts fullFields none "id1" 7 []).fst =
      CreateResp.badRequest "Photo is Required and should be less than 1MB" ∧
    (CreateProducts fullFields none "id1" 7 []).fst.isOk = false ∧
    (CreateProducts fullFields none "id1" 7 []).snd = [] := by
  decide

/-- C4 (amended): the photo is required at creation: every create request
with name, description, price, category and quantity present but no photo
file is rejected with the 400 photo error and persists nothing. -/
theorem c4_photo_required_at_create (fields : ProductFields) (newId : String)
    (now : Nat) (store : List Product)
    (hname : truthy fields.name = true)
    (hdesc : truthy fields.description = true)
    (hprice : truthy fields.price = true)
    (hcat : truthy fields.category = true)
    (hqty : truthy fields.quantity = true) :
    CreateProducts fields none newId now store =
      (CreateResp.badRequest "Photo is Required and should be less than 1MB",
        store) := by
  simp [CreateProducts, hname, hdesc, hprice, hcat, hqty]

/-- C4 (witness): the amended theorem applied to a concrete full-field
request without a photo. -/
theorem c4_photo_required_at_create_witness :
    CreateProducts fullFields none "id1" 7 [prodA] =
      (CreateResp.badRequest "Photo is Required and should be less than 1MB",
        [prodA]) :=
  c4_photo_required_at_create fullFields "id1" 7 [prodA] (by decide)
    (by decide) (by decide) (by decide) (by decide)

/-- C5 (confirmed): every create request and every update request carrying a
photo payload larger than 1,000,000 bytes is rejected — no success response —
and leaves the product collection unchanged, whatever the other fields
contain. -/
theorem c5_oversized_photo_always_rejected (fields : ProductFields)
    (ph : PhotoFile) (newId : String) (now : Nat) (id : String)
    (store : List Product) (hsize : 1000000 < ph.size) :
    (CreateProducts fields (some ph) newId now store).fst.isOk = false ∧
    (CreateProducts fields (some ph) newId now store).snd = store ∧
    (UpdateProduct id fields (some ph) store).fst.isOk = false ∧
    (UpdateProduct id fields (some ph) store).snd = store := by
  by_cases h1 : (!truthy fields.name) = true
  · simp [CreateProducts, UpdateProduct, h1, CreateResp.isOk, UpdateResp.isOk]
  · by_cases h2 : (!truthy fields.description) = true
    · simp [CreateProducts, UpdateProduct, h1, h2, CreateResp.isOk,
        UpdateResp.isOk]
    · by_cases h3 : (!truthy fields.price) = true
      · simp [CreateProducts, UpdateProduct, h1, h2, h3, CreateResp.isOk,
          UpdateResp.isOk]
      · by_cases h4 : (!truthy fields.category) = true
        · simp [CreateProducts, UpdateProduct, h1, h2, h3, h4,
            CreateResp.isOk, UpdateResp.isOk]
        · by_cases h5 : (!truthy fields.quantity) = true
          · simp [CreateProducts, UpdateProduct, h1, h2, h3, h4, h5,
              CreateResp.isOk, UpdateResp.isOk]
          · simp [CreateProducts, UpdateProduct, h1, h2, h3, h4, h5, hsize,
              CreateResp.isOk, UpdateResp.isOk]

/-- C5 (witness): the confirmed theorem applied to a concrete oversized
photo at create and update time over a one-product store. -/
theorem c5_oversized_photo_always_rejected_witness :
    (CreateProducts fullFields (some photoBig) "id1" 0 [prodA]).fst.isOk
      = false ∧
    (CreateProducts fullFields (some photoBig) "id1" 0 [prodA]).snd
      = [prodA] ∧
    (UpdateProduct "p1" fullFields (some photoBig) [prodA]).fst.isOk
      = false ∧
    (UpdateProduct "p1" fullFields (some photoBig) [prodA]).snd = [prodA] :=
  c5_oversized_photo_always_rejected fullFields photoBig "id1" 0 "p1" [prodA]
    (by decide)

/-- The spec's example cart with line-item prices 10 and 25 (quantities
deliberately not 1, since the total must ignore them). -/
def cartTwo : List CartItem :=
  [{ productId := "a", price := 10, quantity := 2 },
   { productId := "b", price := 25, quantity := 3 }]

/-- C1 (code_bug): on the example cart the computed charge total is 35, the
sum of the line-item prices, and the gateway-failure path returns the
gateway's error with no order created — but on gateway success the handler
raises `ReferenceError: orderModel is not defined` (the identifier is never
imported), so no Order is persisted and no success response is produced,
contrary to the claim. -/
theorem c1_payment_success_path_throws :
    computeTotal cartTwo = 35 ∧
    (brainTreePaymentController "nonce1" cartTwo "buyer1"
      (GatewayOutcome.success "settled") []).amountSubmitted = 35 ∧
    (brainTreePaymentController "nonce1" cartTwo "buyer1"
      (GatewayOutcome.success "settled") []).resp
      = PaymentResp.referenceError "orderModel" ∧
    (brainTreePaymentController "nonce1" cartTwo "buyer1"
      (GatewayOutcome.success "settled") []).orders = [] ∧
    (brainTreePaymentController "nonce1" cartTwo "buyer1"
      (GatewayOutcome.failure "declined") []).resp
      = PaymentResp.gatewayError "declined" ∧
    (brainTreePaymentController "nonce1" cartTwo "buyer1"
      (GatewayOutcome.failure "declined") []).orders = [] := by
  decide

/-- C2 (counterexample): a get-by-slug request matching no product is
answered with status 200 and a null product — not a NotFound with a
404-class status as the claim states. -/
theorem c2_counterexample_no_match_is_200 :
    getProduct "missing-slug" [] [prodA] =
      { status := 200, success := true, product := none } ∧
    clientErrorClass (getProduct "missing-slug" [] [prodA]).status = false := by
  decide

/-- C2 (amended): get-by-slug always answers 200: when some product has the
slug it returns exactly the first matching product with its category
resolved and the photo excluded, and when no product matches it returns the
same 200 success envelope with a null product instead of signalling
NotFound. -/
theorem c2_get_by_slug_always_200 (slug : String) (cats : List Category)
    (store : List Product) :
    (getProduct slug cats store).status = 200 ∧
    (getProduct slug cats store).success = true ∧
    (getProduct slug cats store).product =
      (store.find? (fun p => p.slug == slug)).map (populateStrip cats) ∧
    (∀ p, store.find? (fun q => q.slug == slug) = some p →
      p.slug = slug ∧
      (getProduct slug cats store).product = some (populateStrip cats p)) ∧
    (store.find? (fun q => q.slug == slug) = none →
      (getProduct slug cats store).product = none) := by
  refine ⟨rfl, rfl, rfl, ?_, ?_⟩
  · intro p hp
    have hpred : (p.slug == slug) = true :=
      @List.find?_some Product (fun q => q.slug == slug) p store hp
    refine ⟨eq_of_beq hpred, ?_⟩
    simp [getProduct, hp]
  · intro h
    simp [getProduct, h]

/-- C2 (witness): the amended theorem applied to a store containing a
product with the requested slug. -/
theorem c2_get_by_slug_always_200_witness :
    prodB.slug = "Beta-Lamp" ∧
    (getProduct "Beta-Lamp" [] [prodA, prodB]).product
      = some (populateStrip [] prodB) :=
  (c2_get_by_slug_always_200 "Beta-Lamp" [] [prodA, prodB]).2.2.2.1 prodB
    (by decide)

/-- C9 (confirmed): delete always answers 200, returns the document with the
given id as it existed immediately before deletion (null when absent),
removes it from the collection, and leaves the collection untouched without
failing when no document has the id. -/
theorem c9_delete_unconditional (id : String) (store : List Product) :
    (DeleteProduct id store).fst.status = 200 ∧
    (DeleteProduct id store).fst.success = true ∧
    (DeleteProduct id store).fst.products
      = store.find? (fun p => p.id == id) ∧
    (DeleteProduct id store).snd = store.eraseP (fun p => p.id == id) ∧
    (store.find? (fun p => p.id == id) = none →
      (DeleteProduct id store).fst.products = none ∧
      (DeleteProduct id store).snd = store) ∧
    (∀ p, store.find? (fun q => q.id == id) = some p →
      p ∈ store ∧ p.id = id ∧
      ((DeleteProduct id store).snd).length + 1 = store.length) := by
  refine ⟨rfl, rfl, rfl, rfl, ?_, ?_⟩
  · intro h
    refine ⟨by simp [DeleteProduct, findByIdAndDelete, h], ?_⟩
    have hall := List.find?_eq_none.mp h
    simp only [DeleteProduct, findByIdAndDelete]
    exact List.eraseP_of_forall_not hall
  · intro p hp
    have hmem := List.mem_of_find?_eq_some hp
    have hpred : (p.id == id) = true :=
      @List.find?_some Product (fun q => q.id == id) p store hp
    have hpos : 0 < store.length := List.length_pos_of_mem hmem
    have hlen : (store.eraseP (fun q => q.id == id)).length = store.length - 1 :=
      @List.length_eraseP_of_mem Product store p (fun q => q.id == id) hmem hpred
    refine ⟨hmem, eq_of_beq hpred, ?_⟩
    simp only [DeleteProduct, findByIdAndDelete]
    omega

/-- C9 (witness): the confirmed theorem applied to a nonexistent id over a
one-product store: no failure, null result, store unchanged. -/
theorem c9_delete_unconditional_witness :
    (DeleteProduct "zzz" [prodA]).fst.products = none ∧
    (DeleteProduct "zzz" [prodA]).snd = [prodA] :=
  (c9_delete_unconditional "zzz" [prodA]).2.2.2.2.1 (by decide)

/-- C10 (confirmed): when the filter request body omits `checked` or omits
`radio`, the handler takes only the thrown-error path: it never produces the
product-list response, and its outcome is independent of the product
collection, so no product query result is ever observed for such input. -/
theorem c10_filter_missing_arrays_throw (checked : Option (List String))
    (radio : Option (List Int)) (store store2 : List Product)
    (h : checked = none ∨ radio = none) :
    (∃ msg, productFilter checked radio store = FilterResp.thrown msg) ∧
    (∀ l, productFilter checked radio store ≠ FilterResp.ok l) ∧
    productFilter checked radio store = productFilter checked radio store2 := by
  rcases h with h | h
  · subst h
    exact ⟨⟨_, rfl⟩, fun l => by simp [productFilter], rfl⟩
  · subst h
    cases checked with
    | none => exact ⟨⟨_, rfl⟩, fun l => by simp [productFilter], rfl⟩
    | some ch => exact ⟨⟨_, rfl⟩, fun l => by simp [productFilter], rfl⟩

/-- C10 (witness): the confirmed theorem applied to a body missing
`checked`, over two different stores. -/
theorem c10_filter_missing_arrays_throw_witness :
    (∃ msg, productFilter none (some [0, 50]) [prodA]
      = FilterResp.thrown msg) ∧
    (∀ l, productFilter none (some [0, 50]) [prodA] ≠ FilterResp.ok l) ∧
    productFilter none (some [0, 50]) [prodA]
      = productFilter none (some [0, 50]) [] :=
  c10_filter_missing_arrays_throw none (some [0, 50]) [prodA] [] (Or.inl rfl)

/-- Inserting into the descending-order list is a permutation of consing. -/
theorem perm_insertByCreatedDesc (p : Product) (l : List Product) :
    (insertByCreatedDesc p l).Perm (p :: l) := by
  induction l with
  | nil => exact List.Perm.refl _
  | cons q qs ih =>
    simp only [insertByCreatedDesc]
    split
    · exact List.Perm.refl _
    · exact (ih.cons q).trans (List.Perm.swap p q qs)

/-- Inserting into a descending-order list keeps it in descending order. -/
theorem pairwise_insertByCreatedDesc (p : Product) (l : List Product)
    (hl : List.Pairwise (fun a b => b.createdAt ≤ a.createdAt) l) :
    List.Pairwise (fun a b => b.createdAt ≤ a.createdAt)
      (insertByCreatedDesc p l) := by
  induction l with
  | nil => simp [insertByCreatedDesc]
  | cons q qs ih =>
    rcases List.pairwise_cons.mp hl with ⟨hq, hqs⟩
    simp only [insertByCreatedDesc]
    split
    case isTrue hle =>
      refine List.pairwise_cons.mpr ⟨?_, hl⟩
      intro b hb
      rcases List.mem_cons.mp hb with rfl | hb
      · exact hle
      · exact le_trans (hq b hb) hle
    case isFalse hgt =>
      refine List.pairwise_cons.mpr ⟨?_, ih hqs⟩
      intro b hb
      have hb2 : b ∈ p :: qs := (perm_insertByCreatedDesc p qs).subset hb
      rcases List.mem_cons.mp hb2 with rfl | hb2
      · exact Nat.le_of_lt (Nat.lt_of_not_le hgt)
      · exact hq b hb2

/-- The modelled `.sort({createdAt: -1})` is a permutation of the store. -/
theorem sortByCreatedDesc_perm (l : List Product) :
    (sortByCreatedDesc l).Perm l := by
  induction l with
  | nil => exact List.Perm.refl _
  | cons p ps ih =>
    simp only [sortByCreatedDesc]
    exact (perm_insertByCreatedDesc p (sortByCreatedDesc ps)).trans (ih.cons p)

/-- The modelled `.sort({createdAt: -1})` is in descending creation order. -/
theorem sortByCreatedDesc_sorted (l : List Product) :
    List.Pairwise (fun a b => b.createdAt ≤ a.createdAt)
      (sortByCreatedDesc l) := by
  induction l with
  | nil => simp [sortByCreatedDesc]
  | cons p ps ih => exact pairwise_insertByCreatedDesc p _ ih

/-- C6 (confirmed): the paginated list answers 200 with the photo field
excluded and at most 3 products: the descending-creation-order store (a
sorted permutation of it) with the first `(p-1)*3` records skipped, where
the page defaults to 1 when the parameter is absent or falsy; with at least
6 records stored, page 2 returns exactly the records ranked 4 to 6 by
descending creation time. -/
theorem c6_productList_pagination (page : Option Nat) (store : List Product) :
    (productList page store).status = 200 ∧
    (productList page store).products =
      (((sortByCreatedDesc store).drop ((effPage page - 1) * 3)).take 3).map
        stripPhoto ∧
    (productList page store).products.length ≤ 3 ∧
    (sortByCreatedDesc store).Perm store ∧
    List.Pairwise (fun a b => b.createdAt ≤ a.createdAt)
      (sortByCreatedDesc store) ∧
    effPage none = 1 ∧ effPage (some 0) = 1 ∧
    (6 ≤ store.length →
      (productList (some 2) store).products =
        (((sortByCreatedDesc store).drop 3).take 3).map stripPhoto ∧
      (productList (some 2) store).products.length = 3) := by
  refine ⟨rfl, rfl, ?_, sortByCreatedDesc_perm store,
    sortByCreatedDesc_sorted store, rfl, rfl, ?_⟩
  · simp only [productList, List.length_map, List.length_take]
    omega
  · intro h6
    have hlen : (sortByCreatedDesc store).length = store.length :=
      (sortByCreatedDesc_perm store).length_eq
    refine ⟨rfl, ?_⟩
    simp [productList, effPage, List.length_take, List.length_drop, hlen]
    omega

/-- C6 (witness): the confirmed theorem applied to a six-product store at
page 2. -/
theorem c6_productList_pagination_witness :
    (productList (some 2) sixStore).products =
      (((sortByCreatedDesc sixStore).drop 3).take 3).map stripPhoto ∧
    (productList (some 2) sixStore).products.length = 3 :=
  (c6_productList_pagination (some 2) sixStore).2.2.2.2.2.2.2 (by decide)

/-- C7 (confirmed): search on an empty keyword fails with the 400 validation
error; on a non-empty keyword it answers exactly the photo-excluded views of
those stored products whose name or description contains the keyword as a
case-insensitive substring. -/
theorem c7_search_keyword_substring (keyword : String)
    (store : List Product) :
    (keyword = "" →
      ProductSearch keyword store
        = SearchResp.badRequest "Keyword is required.") ∧
    (keyword ≠ "" →
      ProductSearch keyword store
        = SearchResp.ok (searchMatches keyword store)) ∧
    (∀ v, v ∈ searchMatches keyword store ↔
      ∃ p, p ∈ store ∧
        (ciContains keyword p.name = true ∨
          ciContains keyword p.description = true) ∧
        stripPhoto p = v) := by
  refine ⟨?_, ?_, ?_⟩
  · intro h
    subst h
    rfl
  · intro h
    have hne : keyword.isEmpty = false := by
      rw [Bool.eq_false_iff]
      intro hc
      exact h ((String.isEmpty_iff keyword).mp hc)
    simp [ProductSearch, hne]
  · intro v
    simp only [searchMatches, List.mem_map, List.mem_filter, Bool.or_eq_true]
    constructor
    · rintro ⟨p, ⟨hp, hm⟩, hv⟩
      exact ⟨p, hp, hm, hv⟩
    · rintro ⟨p, hp, hm, hv⟩
      exact ⟨p, ⟨hp, hm⟩, hv⟩

/-- C7 (witness): the confirmed theorem applied to the keyword "PhOnE" over
a two-product store where only one product's description contains "phone"
(case-varied), and to the empty keyword. -/
theorem c7_search_keyword_substring_witness :
    ProductSearch "PhOnE" [prodA, prodB] = SearchResp.ok [stripPhoto prodA] ∧
    ProductSearch "" [prodA, prodB]
      = SearchResp.badRequest "Keyword is required." := by
  constructor
  · have h := (c7_search_keyword_substring "PhOnE" [prodA, prodB]).2.1
      (by decide)
    rw [h]
    decide
  · exact (c7_search_keyword_substring "" [prodA, prodB]).1 rfl

/-- C8 (counterexample): a photo-fetch request whose product id matches no
document produces no terminal response at all — the handler falls through
its `if (product)` without answering — refuting the claim that some
terminal response is always produced. -/
theorem c8_counterexample_missing_product_silent :
    productPhotoContrller "p1" [] = PhotoResp.noResponse ∧
    (productPhotoContrller "p1" []).responds = false := by
  decide

/-- C8 (amended): when the product exists the handler sends the stored photo
bytes with the stored content-type header (both absent when the document has
no photo data, an empty response); when no product exists the handler
produces no terminal response at all, rather than a NotFound or empty
response. -/
theorem c8_photo_fetch_only_when_found (pid : String) (store : List Product) :
    (∀ p, store.find? (fun q => q.id == pid) = some p →
      productPhotoContrller pid store =
        PhotoResp.sent (p.photo.map (fun ph => ph.contentType))
          (p.photo.map (fun ph => ph.data)) ∧
      (productPhotoContrller pid store).responds = true) ∧
    (store.find? (fun q => q.id == pid) = none →
      productPhotoContrller pid store = PhotoResp.noResponse ∧
      (productPhotoContrller pid store).responds = false) := by
  constructor
  · intro p hp
    constructor <;> simp [productPhotoContrller, hp, PhotoResp.responds]
  · intro h
    constructor <;> simp [productPhotoContrller, h, PhotoResp.responds]

/-- C8 (witness): the amended theorem applied to a store containing the
requested product, which carries photo bytes and a content type. -/
theorem c8_photo_fetch_only_when_found_witness :
    productPhotoContrller "p1" [prodA] =
      PhotoResp.sent (some "image/png") (some [7, 8]) := by
  have h := (c8_photo_fetch_only_when_found "p1" [prodA]).1 prodA (by decide)
  exact h.1.trans (by decide)

end ECommerce
